import Mathlib

/-!
Verification of the transaction-ledger and interest-calculator core of
`finans.py` (a personal income/expense tracker backed by a SQLite table).

The shallow embedding models:
  * the `transactions` table as a `List TransactionRecord` in insertion order
    (SQLite amounts are `REAL`; here they are idealised as `ℚ` so that sums
    are exact);
  * the database file as `Option Store` (`none` = the table does not exist
    yet, `some s` = the table exists and holds the rows `s`);
  * `init_db` as the `CREATE TABLE IF NOT EXISTS` effect;
  * `add_transaction` as the `INSERT` (the current wall-clock string is an
    explicit `date` argument; the Python function has no `return` statement,
    so its returned value is modelled as the second component `none`);
  * the two `SELECT SUM(amount) ... WHERE type=...` queries of
    `show_summary`, including SQL's convention that `SUM` over no rows is
    `NULL` and Python's `fetchone()[0] or 0` coercion;
  * `simple_interest` / `compound_interest` with Python's `round(x, 2)`
    idealised as round-half-to-even on `ℚ`, and Python's `ZeroDivisionError`
    made explicit in an `Except` result.
-/

/-- One row of the `transactions` table: `id INTEGER PRIMARY KEY
AUTOINCREMENT`, `type TEXT`, `amount REAL`, `category TEXT`, `date TEXT`. -/
structure TransactionRecord where
  id : Nat
  type : String
  amount : ℚ
  category : String
  date : String
deriving Repr, DecidableEq

/-- The `transactions` table contents, in insertion order. -/
abbrev Store := List TransactionRecord

/-- The id SQLite's AUTOINCREMENT assigns to the next inserted row:
one more than the largest id used so far. -/
def nextId (db : Store) : Nat :=
  (db.map (fun r => r.id)).foldr max 0 + 1

/-- `add_transaction(t_type, amount, category)` from `finans.py`: inserts one
row with a fresh id and the supplied wall-clock `date` string, commits, and
closes.  The Python function body has no `return` statement, so the value it
returns to the caller is `None`; the pair's second component records that. -/
def add_transaction (db : Store) (t_type : String) (amount : ℚ)
    (category : String) (date : String) : Store × Option Nat :=
  (db ++ [⟨nextId db, t_type, amount, category, date⟩], none)

/-- `SELECT SUM(amount) FROM transactions WHERE type = k`: SQL `SUM` over an
empty row set is `NULL` (modelled `none`), otherwise the arithmetic sum. -/
def sqlSumAmount (db : Store) (k : String) : Option ℚ :=
  let xs := (db.filter fun r => r.type == k).map (fun r => r.amount)
  if xs.isEmpty then none else some xs.sum

/-- Python's `fetchone()[0] or 0`: `None` (and a zero sum, which is falsy)
becomes `0`. -/
def pyOrZero : Option ℚ → ℚ
  | none => 0
  | some v => if v = 0 then 0 else v

/-- The spec's `sum_by_kind`: the aggregate query of `show_summary` followed
by the `or 0` coercion. -/
def sum_by_kind (db : Store) (k : String) : ℚ :=
  pyOrZero (sqlSumAmount db k)

/-- `show_summary()` from `finans.py`, stripped of its printing: the triple
`(total_income, total_expense, balance)` it computes and renders. -/
def show_summary (db : Store) : ℚ × ℚ × ℚ :=
  let total_income := pyOrZero (sqlSumAmount db "income")
  let total_expense := pyOrZero (sqlSumAmount db "expense")
  (total_income, total_expense, total_income - total_expense)

/-- `init_db()` from `finans.py`: `CREATE TABLE IF NOT EXISTS transactions
(...)` — creates the empty table when absent, leaves an existing table's rows
untouched. -/
def init_db : Option Store → Option Store
  | none => some []
  | some s => some s

/-- One append request `(t_type, amount, category, date)` issued by the
dispatcher. -/
abbrev AppendOp := String × ℚ × String × String

/-- Run a sequence of `add_transaction` calls against a store. -/
def applyOps (db : Store) (ops : List AppendOp) : Store :=
  ops.foldl (fun s o => (add_transaction s o.1 o.2.1 o.2.2.1 o.2.2.2).1) db

/-- The observable failure modes named by the spec and by Python. -/
inductive PyError where
  | zeroDivisionError
  | invalidKind
  | invalidArgument
deriving Repr, DecidableEq

deriving instance DecidableEq for Except

/-- Round-half-to-even to the nearest integer, the idealisation of Python's
`round` on exact values. -/
def roundHalfEven (x : ℚ) : ℤ :=
  let f : ℤ := Int.floor x
  let frac : ℚ := x - f
  if frac < 1/2 then f
  else if 1/2 < frac then f + 1
  else if f % 2 = 0 then f else f + 1

/-- Python's `round(x, 2)`: round-half-to-even at the second decimal. -/
def round2 (x : ℚ) : ℚ :=
  (roundHalfEven (x * 100) : ℚ) / 100

/-- `simple_interest(principal, rate, time)` from `finans.py`:
`round(principal * (1 + (rate/100) * time), 2)`. -/
def simple_interest (principal rate time : ℚ) : ℚ :=
  round2 (principal * (1 + (rate / 100) * time))

/-- `compound_interest(principal, rate, time, n)` from `finans.py`:
`round(principal * ((1 + (rate/100)/n) ** (n * time)), 2)`.  The dispatcher
reads `n` with `int(...)` and whole years are the intended use, so `time` and
`n` are naturals here; when `n = 0` Python raises `ZeroDivisionError` at the
division `(rate/100)/n` inside the formula. -/
def compound_interest (principal rate : ℚ) (time : ℕ) (n : ℕ) :
    Except PyError ℚ :=
  if n = 0 then Except.error PyError.zeroDivisionError
  else Except.ok (round2 (principal * (1 + (rate / 100) / (n : ℚ)) ^ (n * time)))

/-! ## Helper lemmas -/

lemma pyOrZero_eq_getD (x : Option ℚ) : pyOrZero x = x.getD 0 := by
  cases x with
  | none => rfl
  | some v =>
    simp only [pyOrZero, Option.getD_some]
    split <;> simp_all

lemma sum_by_kind_eq (db : Store) (k : String) :
    sum_by_kind db k = ((db.filter fun r => r.type == k).map (fun r => r.amount)).sum := by
  rw [sum_by_kind, pyOrZero_eq_getD, sqlSumAmount]
  by_cases h : ((db.filter fun r => r.type == k).map (fun r => r.amount)).isEmpty
  · simp only [h, if_true, Option.getD_none]
    rw [List.isEmpty_iff] at h
    simp [h]
  · simp [h]

lemma sum_by_kind_append (db : Store) (rec : TransactionRecord) (k : String) :
    sum_by_kind (db ++ [rec]) k
      = sum_by_kind db k + (if rec.type = k then rec.amount else 0) := by
  rw [sum_by_kind_eq, sum_by_kind_eq, List.filter_append]
  by_cases h : rec.type = k
  · have hb : (rec.type == k) = true := beq_iff_eq.mpr h
    simp [List.filter, hb, h]
  · have hb : (rec.type == k) = false := beq_eq_false_iff_ne.mpr h
    simp [List.filter, hb, h]

lemma mem_id_lt_nextId (db : Store) (r : TransactionRecord) (hr : r ∈ db) :
    r.id < nextId db := by
  have : r.id ≤ (db.map (fun r => r.id)).foldr max 0 := by
    induction db with
    | nil => cases hr
    | cons a as ih =>
      rcases List.mem_cons.mp hr with h | h
      · subst h; exact le_max_left _ _
      · exact le_trans (ih h) (le_max_right _ _)
  exact Nat.lt_succ_of_le this

lemma roundHalfEven_eq (x : ℚ) (z : ℤ) (h1 : (z : ℚ) ≤ x)
    (h2 : x - z < 1/2) : roundHalfEven x = z := by
  have hx : Int.floor x = z := by
    rw [Int.floor_eq_iff]
    refine ⟨h1, ?_⟩
    linarith
  simp only [roundHalfEven, hx]
  rw [if_pos h2]

lemma show_summary_eq (db : Store) :
    show_summary db
      = (sum_by_kind db "income", sum_by_kind db "expense",
         sum_by_kind db "income" - sum_by_kind db "expense") := rfl

/-! ## Claims -/

/-- C1: For every valid kind in income/expense, every non-negative amount and
every category, `add_transaction` followed by the aggregate query for that
kind yields a sum exactly `a` greater than before, and the aggregate sum of
any other kind is unchanged. -/
theorem append_increases_sum_of_kind (db : Store) (k : String) (a : ℚ)
    (c d : String) (hk : k = "income" ∨ k = "expense") (ha : 0 ≤ a) :
    sum_by_kind (add_transaction db k a c d).1 k = sum_by_kind db k + a ∧
    ∀ k2 : String, k2 ≠ k →
      sum_by_kind (add_transaction db k a c d).1 k2 = sum_by_kind db k2 := by
  constructor
  · show sum_by_kind (db ++ [⟨nextId db, k, a, c, d⟩]) k = _
    rw [sum_by_kind_append]
    simp
  · intro k2 hne
    show sum_by_kind (db ++ [⟨nextId db, k, a, c, d⟩]) k2 = _
    rw [sum_by_kind_append]
    simp [Ne.symm hne]

/-- Witness for C1 at a concrete store and input. -/
theorem append_increases_sum_of_kind_witness :
    sum_by_kind (add_transaction [⟨1, "expense", 3, "rent", "d0"⟩]
        "income" 5 "salary" "d1").1 "income"
      = sum_by_kind [⟨1, "expense", 3, "rent", "d0"⟩] "income" + 5 ∧
    sum_by_kind (add_transaction [⟨1, "expense", 3, "rent", "d0"⟩]
        "income" 5 "salary" "d1").1 "expense"
      = sum_by_kind [⟨1, "expense", 3, "rent", "d0"⟩] "expense" := by
  have h := append_increases_sum_of_kind [⟨1, "expense", 3, "rent", "d0"⟩]
    "income" 5 "salary" "d1" (Or.inl rfl) (by norm_num)
  exact ⟨h.1, h.2 "expense" (by decide)⟩

/-- C2: after any sequence of appends starting from the empty store, the
balance component of `show_summary` equals total income minus total
expense. -/
theorem balance_eq_income_sub_expense (ops : List AppendOp) :
    (show_summary (applyOps [] ops)).2.2
      = (show_summary (applyOps [] ops)).1
        - (show_summary (applyOps [] ops)).2.1 := rfl

/-- C3 counterexample: `add_transaction` in `finans.py` has no `return`
statement, so the call returns `None` rather than the newly assigned id
(which would be `1` on the empty store). -/
theorem add_transaction_no_id_returned :
    (add_transaction [] "income" 5 "salary" "2024-01-01 00:00:00").2 = none ∧
    (add_transaction [] "income" 5 "salary" "2024-01-01 00:00:00").2
      ≠ some (nextId []) := by
  exact ⟨rfl, by simp [add_transaction]⟩

/-- C3 amended: `add_transaction` persists exactly one new record carrying
the freshly assigned id (one more than every id already in the store, hence
unique and strictly increasing), but it returns `None`, not the id. -/
theorem add_transaction_assigns_fresh_id_returns_none
    (db : Store) (k : String) (a : ℚ) (c d : String) :
    add_transaction db k a c d = (db ++ [⟨nextId db, k, a, c, d⟩], none) ∧
    (db.all fun r => decide (r.id < nextId db)) = true := by
  refine ⟨rfl, ?_⟩
  simp only [List.all_eq_true, decide_eq_true_eq]
  exact fun r hr => mem_id_lt_nextId db r hr

/-- C4 counterexample: appending with the invalid kind `"unknown"` does not
fail and does not leave the store unchanged — the row is inserted. -/
theorem invalid_kind_append_persists_row :
    (add_transaction [] "unknown" 5 "misc" "2024-01-01 00:00:00").1
      = [⟨1, "unknown", 5, "misc", "2024-01-01 00:00:00"⟩] ∧
    (add_transaction [] "unknown" 5 "misc" "2024-01-01 00:00:00").1
      ≠ ([] : Store) := by
  exact ⟨rfl, by simp [add_transaction]⟩

/-- C4 amended: `add_transaction` performs no kind validation: for any kind
outside income/expense the call succeeds and persists one more row, while
both aggregate sums are unchanged because the queries match the literal
strings only. -/
theorem invalid_kind_append_no_error_sums_unchanged
    (db : Store) (k : String) (a : ℚ) (c d : String)
    (h1 : k ≠ "income") (h2 : k ≠ "expense") :
    (add_transaction db k a c d).1.length = db.length + 1 ∧
    sum_by_kind (add_transaction db k a c d).1 "income"
      = sum_by_kind db "income" ∧
    sum_by_kind (add_transaction db k a c d).1 "expense"
      = sum_by_kind db "expense" := by
  refine ⟨by simp [add_transaction], ?_, ?_⟩
  · show sum_by_kind (db ++ [⟨nextId db, k, a, c, d⟩]) "income" = _
    rw [sum_by_kind_append]
    simp [h1]
  · show sum_by_kind (db ++ [⟨nextId db, k, a, c, d⟩]) "expense" = _
    rw [sum_by_kind_append]
    simp [h2]

/-- Witness for the amended C4 at a concrete input. -/
theorem invalid_kind_append_no_error_sums_unchanged_witness :
    (add_transaction [] "unknown" 5 "misc" "d").1.length
      = ([] : Store).length + 1 ∧
    sum_by_kind (add_transaction [] "unknown" 5 "misc" "d").1 "income"
      = sum_by_kind [] "income" ∧
    sum_by_kind (add_transaction [] "unknown" 5 "misc" "d").1 "expense"
      = sum_by_kind [] "expense" :=
  invalid_kind_append_no_error_sums_unchanged [] "unknown" 5 "misc" "d"
    (by decide) (by decide)

/-- C5 counterexample: `compound_interest` with `n = 0` fails with Python's
`ZeroDivisionError` raised by the division inside the formula, not with an
`InvalidArgument` rejection. -/
theorem compound_zero_n_not_invalid_argument :
    compound_interest 1000 5 1 0 = Except.error PyError.zeroDivisionError ∧
    compound_interest 1000 5 1 0 ≠ Except.error PyError.invalidArgument := by
  exact ⟨rfl, by simp [compound_interest]⟩

/-- C5 amended: for every principal, rate and time, `compound_interest` with
`compounds_per_year = 0` fails with `ZeroDivisionError` arising from the
division by `n` while the formula is evaluated; there is no `InvalidArgument`
pre-check in the code. -/
theorem compound_interest_zero_n_zero_division
    (principal rate : ℚ) (time : ℕ) :
    compound_interest principal rate time 0
      = Except.error PyError.zeroDivisionError := rfl

/-- C6: on the empty store the aggregate query returns exactly 0 for every
kind (SQL `SUM` gives `NULL`, coerced by `or 0`), and `show_summary` returns
the triple (0, 0, 0). -/
theorem empty_store_summary_zero :
    (∀ k : String, sum_by_kind [] k = 0) ∧ show_summary [] = (0, 0, 0) :=
  ⟨fun _ => rfl, by simp [show_summary, sqlSumAmount, pyOrZero]⟩

/-- C7: `simple_interest` computes `principal * (1 + (rate/100) * time)`
rounded to 2 decimal places (round-half-to-even, Python's `round`), and in
particular `simple_interest 1000 5 2 = 1100`. -/
theorem simple_interest_formula_and_example :
    (∀ principal rate time : ℚ,
      simple_interest principal rate time
        = round2 (principal * (1 + (rate / 100) * time))) ∧
    simple_interest 1000 5 2 = 1100 :=
  ⟨fun _ _ _ => rfl, by
    have h : roundHalfEven (1000 * (1 + (5 : ℚ) / 100 * 2) * 100) = 110000 :=
      roundHalfEven_eq _ _ (by norm_num) (by norm_num)
    simp only [simple_interest, round2, h]
    norm_num⟩

/-- C8: for every nonzero `n`, `compound_interest` computes
`principal * (1 + (rate/100)/n) ^ (n * time)` rounded with the same `round2`
policy as `simple_interest`, and `compound_interest 1000 5 1 12` is exactly
`26279/25 = 1051.16`. -/
theorem compound_interest_formula_and_example
    (principal rate : ℚ) (time n : ℕ) (hn : n ≠ 0) :
    compound_interest principal rate time n
      = Except.ok (round2 (principal * (1 + (rate / 100) / (n : ℚ)) ^ (n * time))) ∧
    compound_interest 1000 5 1 12 = Except.ok (26279 / 25) := by
  constructor
  · rw [compound_interest, if_neg hn]
  · have h : roundHalfEven (1000 * (1 + (5 : ℚ) / 100 / 12) ^ 12 * 100)
        = 105116 :=
      roundHalfEven_eq _ _ (by norm_num) (by norm_num)
    have e1 : compound_interest 1000 5 1 12
        = Except.ok (round2 (1000 * (1 + (5 : ℚ) / 100 / 12) ^ 12)) := by
      rw [compound_interest, if_neg (by norm_num : (12 : ℕ) ≠ 0)]
      norm_num
    rw [e1]
    simp only [round2, h]
    norm_num

/-- Witness for C8 at a concrete nonzero compounding frequency. -/
theorem compound_interest_formula_and_example_witness :
    compound_interest 1000 5 2 4
      = Except.ok (round2 (1000 * (1 + ((5 : ℚ) / 100) / (4 : ℚ)) ^ (4 * 2))) ∧
    compound_interest 1000 5 1 12 = Except.ok (26279 / 25) :=
  compound_interest_formula_and_example 1000 5 2 4 (by decide)

/-- C9: `init_db` is idempotent — a second call never fails and never alters
data: records appended between the two calls are still present and still
summed identically after the second call. -/
theorem ensure_schema_idempotent (db : Option Store) (ops : List AppendOp) :
    init_db (init_db db) = init_db db ∧
    init_db (some (applyOps ((init_db db).getD []) ops))
      = some (applyOps ((init_db db).getD []) ops) ∧
    show_summary ((init_db (some (applyOps ((init_db db).getD []) ops))).getD [])
      = show_summary (applyOps ((init_db db).getD []) ops) := by
  refine ⟨?_, rfl, rfl⟩
  cases db <;> rfl

/-- C10: appending a record with a kind outside income/expense persists the
record, yet `show_summary` returns exactly the same triple before and after,
because the aggregate queries match the literal strings only. -/
theorem invalid_kind_summary_unchanged
    (db : Store) (k : String) (a : ℚ) (c d : String)
    (h1 : k ≠ "income") (h2 : k ≠ "expense") :
    show_summary (add_transaction db k a c d).1 = show_summary db ∧
    (⟨nextId db, k, a, c, d⟩ : TransactionRecord)
      ∈ (add_transaction db k a c d).1 := by
  constructor
  · have h3 : (add_transaction db k a c d).1
        = db ++ [⟨nextId db, k, a, c, d⟩] := rfl
    have hi : sum_by_kind (db ++ [⟨nextId db, k, a, c, d⟩]) "income"
        = sum_by_kind db "income" := by
      rw [sum_by_kind_append]; simp [h1]
    have he : sum_by_kind (db ++ [⟨nextId db, k, a, c, d⟩]) "expense"
        = sum_by_kind db "expense" := by
      rw [sum_by_kind_append]; simp [h2]
    rw [show_summary_eq, show_summary_eq, h3, hi, he]
  · show _ ∈ db ++ [⟨nextId db, k, a, c, d⟩]
    simp

/-- Witness for C10 at a concrete invalid kind. -/
theorem invalid_kind_summary_unchanged_witness :
    show_summary (add_transaction [] "transfer" 7 "misc" "d").1
      = show_summary [] ∧
    (⟨1, "transfer", 7, "misc", "d"⟩ : TransactionRecord)
      ∈ (add_transaction [] "transfer" 7 "misc" "d").1 :=
  invalid_kind_summary_unchanged [] "transfer" 7 "misc" "d"
    (by decide) (by decide)
